import Mathlib

/-!
Verification of the TrustOS mbedtls platform shim, file
crates/mbedtls-platform-support/src/rust_printf.c, together with the
declaration headers under kernel/mbedtls-include/.

The three stub formatted-output functions are embedded shallowly.  A
pointer is `Option Nat` (none is NULL), a format string is
`Option (List Nat)` (none is a NULL format pointer), and a variadic or
pre-packed argument list is an opaque `List Nat`.  Each stub returns its
C return value together with the exact trace of byte writes it performs,
as a list of address-value pairs, so that the claims about which bytes
are written (and that no write happens at all in some cases) are stated
about the trace itself, not merely about a final memory that could hide
a rewrite of an identical byte.
-/

/-- Byte-addressed memory: a total map from addresses to byte values. -/
def Mem : Type := Nat → Nat

/-- A C pointer: none is the NULL pointer. -/
def Ptr : Type := Option Nat

/-- A format string argument: none is a NULL char pointer. -/
def FmtString : Type := Option (List Nat)

/-- Opaque variadic or pre-packed (va_list) arguments, never inspected. -/
def VaArgs : Type := List Nat

/-- One byte store at address a with value v. -/
def writeByte (m : Mem) (a v : Nat) : Mem :=
  fun x => if x = a then v else m x

/-- Replay a trace of byte writes over a memory, in order. -/
def memAfter (m : Mem) (ws : List (Nat × Nat)) : Mem :=
  ws.foldl (fun acc w => writeByte acc w.1 w.2) m

/-- Embedding of mbedtls_printf from rust_printf.c: the format string is
cast to void and the function returns 0, performing no write. -/
def mbedtls_printf (fmt : FmtString) (args : VaArgs) : Int × List (Nat × Nat) :=
  let _ := fmt
  let _ := args
  (0, [])

/-- Embedding of mbedtls_snprintf from rust_printf.c: if n > 0 and s is
non-null, store one null byte at s[0]; in every case return 0. -/
def mbedtls_snprintf (s : Ptr) (n : Nat) (fmt : FmtString) (args : VaArgs) :
    Int × List (Nat × Nat) :=
  let _ := fmt
  let _ := args
  match s, n with
  | some p, Nat.succ _ => (0, [(p, 0)])
  | _, _ => (0, [])

/-- Embedding of mbedtls_vsnprintf from rust_printf.c: if n > 0 and s is
non-null, store one null byte at s[0]; in every case return 0.  The
pre-packed argument list ap is cast to void in the source. -/
def mbedtls_vsnprintf (s : Ptr) (n : Nat) (fmt : FmtString) (ap : VaArgs) :
    Int × List (Nat × Nat) :=
  let _ := fmt
  let _ := ap
  match s, n with
  | some p, Nat.succ _ => (0, [(p, 0)])
  | _, _ => (0, [])

/-- Whether address a lies inside the caller-supplied buffer described by
pointer s and capacity n, that is in the half-open range from s up to
s + n.  A NULL pointer describes no buffer at all. -/
def inBuffer (s : Ptr) (n a : Nat) : Bool :=
  match s with
  | some p => decide (p ≤ a) && decide (a < p + n)
  | none => false

/-!
Declaration surface.  C types and function signatures are transcribed
from the headers kernel/mbedtls-include/{stdio,stdlib,string,time}.h and
from the external definitions in rust_printf.c; the binding contract of
spec section 6 is transcribed separately from the spec so the two can be
compared.
-/

/-- The C types that occur in the declared signatures. -/
inductive CType where
  | void
  | voidPtr
  | constVoidPtr
  | charPtr
  | constCharPtr
  | sizeT
  | cInt
  | cUInt
  | timeT
  | timeTPtr
  | constTimeTPtr
  | tmPtr
  | vaList
  deriving DecidableEq

/-- A C function signature: symbol name, fixed parameter types, whether
the parameter list ends in an ellipsis, and return type. -/
structure CSig where
  name : String
  params : List CType
  variadic : Bool
  ret : CType
  deriving DecidableEq

open CType in
/-- Signatures declared by kernel/mbedtls-include/stdlib.h. -/
def stdlibDecls : List CSig :=
  [ ⟨ "mbedtls_platform_calloc", [sizeT, sizeT], false, voidPtr ⟩,
    ⟨ "mbedtls_platform_free", [voidPtr], false, void ⟩,
    ⟨ "malloc", [sizeT], false, voidPtr ⟩,
    ⟨ "calloc", [sizeT, sizeT], false, voidPtr ⟩,
    ⟨ "realloc", [voidPtr, sizeT], false, voidPtr ⟩,
    ⟨ "free", [voidPtr], false, void ⟩,
    ⟨ "rand", [], false, cInt ⟩,
    ⟨ "srand", [cUInt], false, void ⟩ ]

open CType in
/-- Signatures declared by kernel/mbedtls-include/string.h. -/
def stringDecls : List CSig :=
  [ ⟨ "memcpy", [voidPtr, constVoidPtr, sizeT], false, voidPtr ⟩,
    ⟨ "memmove", [voidPtr, constVoidPtr, sizeT], false, voidPtr ⟩,
    ⟨ "memset", [voidPtr, cInt, sizeT], false, voidPtr ⟩,
    ⟨ "memcmp", [constVoidPtr, constVoidPtr, sizeT], false, cInt ⟩,
    ⟨ "strlen", [constCharPtr], false, sizeT ⟩,
    ⟨ "strnlen", [constCharPtr, sizeT], false, sizeT ⟩,
    ⟨ "strcmp", [constCharPtr, constCharPtr], false, cInt ⟩,
    ⟨ "strncmp", [constCharPtr, constCharPtr, sizeT], false, cInt ⟩,
    ⟨ "strcpy", [charPtr, constCharPtr], false, charPtr ⟩,
    ⟨ "strncpy", [charPtr, constCharPtr, sizeT], false, charPtr ⟩,
    ⟨ "strchr", [constCharPtr, cInt], false, charPtr ⟩,
    ⟨ "strstr", [constCharPtr, constCharPtr], false, charPtr ⟩ ]

open CType in
/-- Signatures declared by kernel/mbedtls-include/time.h. -/
def timeDecls : List CSig :=
  [ ⟨ "time", [timeTPtr], false, timeT ⟩,
    ⟨ "gmtime", [constTimeTPtr], false, tmPtr ⟩,
    ⟨ "localtime", [constTimeTPtr], false, tmPtr ⟩ ]

open CType in
/-- Signatures declared by kernel/mbedtls-include/stdio.h. -/
def stdioDecls : List CSig :=
  [ ⟨ "vsnprintf", [charPtr, sizeT, constCharPtr, vaList], false, cInt ⟩,
    ⟨ "snprintf", [charPtr, sizeT, constCharPtr], true, cInt ⟩,
    ⟨ "printf", [constCharPtr], true, cInt ⟩,
    ⟨ "mbedtls_vsnprintf", [charPtr, sizeT, constCharPtr, vaList], false, cInt ⟩,
    ⟨ "mbedtls_snprintf", [charPtr, sizeT, constCharPtr], true, cInt ⟩ ]

open CType in
/-- Signatures of the external definitions in rust_printf.c, which also
declare their symbols for the link step. -/
def rustPrintfDecls : List CSig :=
  [ ⟨ "mbedtls_printf", [constCharPtr], true, cInt ⟩,
    ⟨ "mbedtls_snprintf", [charPtr, sizeT, constCharPtr], true, cInt ⟩,
    ⟨ "mbedtls_vsnprintf", [charPtr, sizeT, constCharPtr, vaList], false, cInt ⟩ ]

/-- The full declaration surface of the repository: every function
signature made resolvable for the build and link step. -/
def declarationSurface : List CSig :=
  stdioDecls ++ stdlibDecls ++ stringDecls ++ timeDecls ++ rustPrintfDecls

open CType in
/-- Modelled from the spec: the function symbols of the section 6
binding contract, transcribed from the words of the spec. -/
def bindingContractSpec : List CSig :=
  [ ⟨ "malloc", [sizeT], false, voidPtr ⟩,
    ⟨ "calloc", [sizeT, sizeT], false, voidPtr ⟩,
    ⟨ "realloc", [voidPtr, sizeT], false, voidPtr ⟩,
    ⟨ "free", [voidPtr], false, void ⟩,
    ⟨ "mbedtls_platform_calloc", [sizeT, sizeT], false, voidPtr ⟩,
    ⟨ "mbedtls_platform_free", [voidPtr], false, void ⟩,
    ⟨ "memcpy", [voidPtr, constVoidPtr, sizeT], false, voidPtr ⟩,
    ⟨ "memmove", [voidPtr, constVoidPtr, sizeT], false, voidPtr ⟩,
    ⟨ "memset", [voidPtr, cInt, sizeT], false, voidPtr ⟩,
    ⟨ "memcmp", [constVoidPtr, constVoidPtr, sizeT], false, cInt ⟩,
    ⟨ "strlen", [constCharPtr], false, sizeT ⟩,
    ⟨ "strnlen", [constCharPtr, sizeT], false, sizeT ⟩,
    ⟨ "strcmp", [constCharPtr, constCharPtr], false, cInt ⟩,
    ⟨ "strncmp", [constCharPtr, constCharPtr, sizeT], false, cInt ⟩,
    ⟨ "strcpy", [charPtr, constCharPtr], false, charPtr ⟩,
    ⟨ "strncpy", [charPtr, constCharPtr, sizeT], false, charPtr ⟩,
    ⟨ "strchr", [constCharPtr, cInt], false, charPtr ⟩,
    ⟨ "strstr", [constCharPtr, constCharPtr], false, charPtr ⟩,
    ⟨ "time", [timeTPtr], false, timeT ⟩,
    ⟨ "gmtime", [constTimeTPtr], false, tmPtr ⟩,
    ⟨ "localtime", [constTimeTPtr], false, tmPtr ⟩,
    ⟨ "printf", [constCharPtr], true, cInt ⟩,
    ⟨ "snprintf", [charPtr, sizeT, constCharPtr], true, cInt ⟩,
    ⟨ "vsnprintf", [charPtr, sizeT, constCharPtr, vaList], false, cInt ⟩,
    ⟨ "mbedtls_printf", [constCharPtr], true, cInt ⟩,
    ⟨ "mbedtls_snprintf", [charPtr, sizeT, constCharPtr], true, cInt ⟩,
    ⟨ "mbedtls_vsnprintf", [charPtr, sizeT, constCharPtr, vaList], false, cInt ⟩ ]

open CType in
/-- The six formatted-output signatures of the section 6 contract. -/
def formattedOutputContract : List CSig :=
  [ ⟨ "printf", [constCharPtr], true, cInt ⟩,
    ⟨ "snprintf", [charPtr, sizeT, constCharPtr], true, cInt ⟩,
    ⟨ "vsnprintf", [charPtr, sizeT, constCharPtr, vaList], false, cInt ⟩,
    ⟨ "mbedtls_printf", [constCharPtr], true, cInt ⟩,
    ⟨ "mbedtls_snprintf", [charPtr, sizeT, constCharPtr], true, cInt ⟩,
    ⟨ "mbedtls_vsnprintf", [charPtr, sizeT, constCharPtr, vaList], false, cInt ⟩ ]

/-!
Theorems settling the claims.
-/

/-- Claim C1: for every capacity n and buffer pointer s, mbedtls_snprintf
with n greater than zero and s non-null writes exactly one terminating
null byte at offset zero of the buffer, leaving every other byte of any
memory unchanged, and in every other case (n zero or s null) performs no
write to the buffer at all. -/
theorem C1_snprintf_terminator (m : Mem) (s : Ptr) (n : Nat)
    (fmt : FmtString) (args : VaArgs) :
    (∀ p, s = some p → 0 < n →
      (mbedtls_snprintf s n fmt args).2 = [(p, 0)] ∧
      memAfter m (mbedtls_snprintf s n fmt args).2 p = 0 ∧
      ∀ a, a ≠ p → memAfter m (mbedtls_snprintf s n fmt args).2 a = m a) ∧
    ((n = 0 ∨ s = none) → (mbedtls_snprintf s n fmt args).2 = []) := by
  constructor
  · intro p hs hn
    subst hs
    cases n with
    | zero => exact absurd hn (by simp)
    | succ k =>
      refine ⟨ rfl, ?_, ?_ ⟩
      · simp [mbedtls_snprintf, memAfter, writeByte]
      · intro a ha
        simp [mbedtls_snprintf, memAfter, writeByte, ha]
  · intro h
    rcases h with h | h
    · subst h
      cases s <;> rfl
    · subst h
      rfl

/-- Witness for C1 at s pointing to address 5, capacity 3 and capacity 0,
with an all-zero starting memory. -/
theorem C1_snprintf_terminator_witness :
    (mbedtls_snprintf (some 5) 3 none []).2 = [(5, 0)] ∧
    (mbedtls_snprintf (some 5) 0 none []).2 = [] := by
  constructor
  · exact ((C1_snprintf_terminator (fun _ => 7) (some 5) 3 none []).1
      5 rfl (by decide)).1
  · exact (C1_snprintf_terminator (fun _ => 7) (some 5) 0 none []).2
      (Or.inl rfl)

/-- Claim C2: for every buffer pointer s, capacity n, format string fmt
and argument list ap, mbedtls_vsnprintf has exactly the same write trace
and return value as mbedtls_snprintf on the same s, n and fmt, for any
variadic arguments of the latter; ap is never consulted. -/
theorem C2_vsnprintf_refines_snprintf (s : Ptr) (n : Nat)
    (fmt : FmtString) (ap args : VaArgs) :
    mbedtls_vsnprintf s n fmt ap = mbedtls_snprintf s n fmt args := by
  cases s <;> cases n <;> rfl

/-- Claim C3: every call to any of the three stubs returns the fixed
value zero, for every format string, argument list, capacity and buffer
pointer, the null pointer included. -/
theorem C3_return_zero (s : Ptr) (n : Nat) (fmt : FmtString)
    (args ap : VaArgs) :
    (mbedtls_printf fmt args).1 = 0 ∧
    (mbedtls_snprintf s n fmt args).1 = 0 ∧
    (mbedtls_vsnprintf s n fmt ap).1 = 0 := by
  refine ⟨ rfl, ?_, ?_ ⟩ <;> cases s <;> cases n <;> rfl

/-- Claim C4: with capacity n equal to zero, mbedtls_snprintf and
mbedtls_vsnprintf perform no memory write whatever the buffer pointer,
non-null dangling pointers included. -/
theorem C4_zero_capacity_no_write (s : Ptr) (fmt : FmtString)
    (args ap : VaArgs) (n : Nat) (hn : n = 0) :
    (mbedtls_snprintf s n fmt args).2 = [] ∧
    (mbedtls_vsnprintf s n fmt ap).2 = [] := by
  subst hn
  cases s <;> exact ⟨ rfl, rfl ⟩

/-- Witness for C4 at a non-null pointer to address 9 and capacity 0. -/
theorem C4_zero_capacity_no_write_witness :
    (mbedtls_snprintf (some 9) 0 (some [37]) [1]).2 = [] ∧
    (mbedtls_vsnprintf (some 9) 0 (some [37]) [1]).2 = [] :=
  C4_zero_capacity_no_write (some 9) (some [37]) [1] [1] 0 rfl

/-- Claim C5: with a null buffer pointer, mbedtls_snprintf and
mbedtls_vsnprintf perform no memory write for every capacity n, however
large, and return normally with value zero. -/
theorem C5_null_pointer_no_write (n : Nat) (fmt : FmtString)
    (args ap : VaArgs) (s : Ptr) (hs : s = none) :
    (mbedtls_snprintf s n fmt args).2 = [] ∧
    (mbedtls_snprintf s n fmt args).1 = 0 ∧
    (mbedtls_vsnprintf s n fmt ap).2 = [] ∧
    (mbedtls_vsnprintf s n fmt ap).1 = 0 := by
  subst hs
  cases n <;> exact ⟨ rfl, rfl, rfl, rfl ⟩

/-- Witness for C5 at the null pointer with capacity 1000000. -/
theorem C5_null_pointer_no_write_witness :
    (mbedtls_snprintf none 1000000 (some [37, 100]) [42]).2 = [] ∧
    (mbedtls_snprintf none 1000000 (some [37, 100]) [42]).1 = 0 ∧
    (mbedtls_vsnprintf none 1000000 (some [37, 100]) [42]).2 = [] ∧
    (mbedtls_vsnprintf none 1000000 (some [37, 100]) [42]).1 = 0 :=
  C5_null_pointer_no_write 1000000 (some [37, 100]) [42] [42] none rfl

/-- Claim C6: for every format string, the null format pointer included,
and every argument list, mbedtls_printf performs no write at all and
returns zero. -/
theorem C6_printf_inert (fmt : FmtString) (args : VaArgs) :
    mbedtls_printf fmt args = (0, []) :=
  rfl

/-- Claim C7: the format string and the arguments are never inspected:
two calls to the same stub agreeing on buffer pointer and capacity but
differing arbitrarily in format string and arguments produce identical
write traces and identical return values. -/
theorem C7_format_never_inspected (s : Ptr) (n : Nat)
    (fmt₁ fmt₂ : FmtString) (args₁ args₂ ap₁ ap₂ : VaArgs) :
    mbedtls_printf fmt₁ args₁ = mbedtls_printf fmt₂ args₂ ∧
    mbedtls_snprintf s n fmt₁ args₁ = mbedtls_snprintf s n fmt₂ args₂ ∧
    mbedtls_vsnprintf s n fmt₁ ap₁ = mbedtls_vsnprintf s n fmt₂ ap₂ := by
  refine ⟨ rfl, ?_, ?_ ⟩ <;> cases s <;> cases n <;> rfl

/-- Claim C8: no stub touches state outside its own arguments and its own
caller-supplied buffer: every write in any write trace lands inside the
half-open buffer range given by s and n, every address outside that range
is left unchanged in any memory, and mbedtls_printf writes nothing. -/
theorem C8_self_contained (m : Mem) (s : Ptr) (n : Nat)
    (fmt fmt₂ : FmtString) (args ap : VaArgs) :
    (∀ w, w ∈ (mbedtls_snprintf s n fmt args).2 → inBuffer s n w.1 = true) ∧
    (∀ w, w ∈ (mbedtls_vsnprintf s n fmt ap).2 → inBuffer s n w.1 = true) ∧
    (∀ a, inBuffer s n a = false →
      memAfter m (mbedtls_snprintf s n fmt args).2 a = m a ∧
      memAfter m (mbedtls_vsnprintf s n fmt ap).2 a = m a) ∧
    (mbedtls_printf fmt₂ args).2 = [] := by
  refine ⟨ ?_, ?_, ?_, rfl ⟩
  · intro w hw
    cases s with
    | none => cases n <;> simp [mbedtls_snprintf] at hw
    | some p =>
      cases n with
      | zero => simp [mbedtls_snprintf] at hw
      | succ k =>
        simp [mbedtls_snprintf] at hw
        subst hw
        simp [inBuffer]
  · intro w hw
    cases s with
    | none => cases n <;> simp [mbedtls_vsnprintf] at hw
    | some p =>
      cases n with
      | zero => simp [mbedtls_vsnprintf] at hw
      | succ k =>
        simp [mbedtls_vsnprintf] at hw
        subst hw
        simp [inBuffer]
  · intro a ha
    cases s with
    | none => cases n <;> exact ⟨ rfl, rfl ⟩
    | some p =>
      cases n with
      | zero => exact ⟨ rfl, rfl ⟩
      | succ k =>
        simp [inBuffer] at ha
        have hap : a ≠ p := by
          intro h
          subst h
          exact absurd (ha le_rfl) (by omega)
        constructor <;>
          simp [mbedtls_snprintf, mbedtls_vsnprintf, memAfter, writeByte, hap]

/-- Witness for C8 at a buffer of capacity 1 at address 2: the single
write (2, 0) lies inside the buffer and address 7 is untouched. -/
theorem C8_self_contained_witness :
    inBuffer (some 2) 1 2 = true ∧
    memAfter (fun _ => 7) (mbedtls_snprintf (some 2) 1 none []).2 7 = 7 := by
  constructor
  · exact (C8_self_contained (fun _ => 7) (some 2) 1 none none [] []).1
      (2, 0) (by decide)
  · exact (((C8_self_contained (fun _ => 7) (some 2) 1 none none [] []).2.2.1
      7 (by decide)).1)

/-- Claim C9: the declaration surface declares every function symbol of
the section 6 binding contract with exactly the listed name, parameter
types, variadic shape and return type; in particular all six
formatted-output signatures are declared. -/
theorem C9_binding_contract_declared (sig : CSig)
    (h : sig ∈ bindingContractSpec) :
    sig ∈ declarationSurface ∧
    (∀ s, s ∈ formattedOutputContract → s ∈ declarationSurface) := by
  revert sig
  decide

/-- Witness for C9 at the mbedtls_printf signature of the contract. -/
theorem C9_binding_contract_declared_witness :
    (⟨ "mbedtls_printf", [CType.constCharPtr], true, CType.cInt ⟩ : CSig) ∈
      declarationSurface :=
  (C9_binding_contract_declared
    ⟨ "mbedtls_printf", [CType.constCharPtr], true, CType.cInt ⟩
    (by decide)).1

/-- Claim C10: mbedtls_snprintf and mbedtls_vsnprintf are idempotent on
the output buffer: replaying the write trace of a second identical call
on top of the first leaves the memory exactly as after one call, and the
second call returns the same value. -/
theorem C10_idempotent (m : Mem) (s : Ptr) (n : Nat) (fmt : FmtString)
    (args ap : VaArgs) :
    memAfter (memAfter m (mbedtls_snprintf s n fmt args).2)
        (mbedtls_snprintf s n fmt args).2 =
      memAfter m (mbedtls_snprintf s n fmt args).2 ∧
    memAfter (memAfter m (mbedtls_vsnprintf s n fmt ap).2)
        (mbedtls_vsnprintf s n fmt ap).2 =
      memAfter m (mbedtls_vsnprintf s n fmt ap).2 := by
  cases s with
  | none => cases n <;> exact ⟨ rfl, rfl ⟩
  | some p =>
    cases n with
    | zero => exact ⟨ rfl, rfl ⟩
    | succ k =>
      constructor <;>
      · funext x
        by_cases hx : x = p <;>
          simp [mbedtls_snprintf, mbedtls_vsnprintf, memAfter, writeByte, hx]
